import Mathlib

/-!
Verification of the minimalist-news-app server (src/main.py).

The program is embedded shallowly: Python strings become `List Char`,
`str.replace` / `str.split` / the `in` operator become the executable
functions `replaceAll` / `pySplit` / `containsSub` below, dictionaries of
article fields become the `Article` structure with `Option` fields
(`dict.get` with a default is `Option.getD`), file reading becomes an
abstract read-only file system `FS : Str → Option Str` (`none` models a
read failure caught by `load_template`), and a raised exception is
modelled by `Option.none` / `Except.error`.
-/

set_option linter.unusedVariables false

abbrev Str := List Char

/-- Abstract file system: maps a file name to its contents, `none` when
reading fails (missing file or read error). -/
abbrev FS := Str → Option Str

/-! ### Python string primitives -/

/-- Fuel-driven worker for `replaceAll`; the fuel is an upper bound on the
length of the scanned string, so `replaceAll` below never hits the
out-of-fuel branch. -/
def replaceAllGo : Nat → Str → Str → Str → Str
  | _, [], _, _ => []
  | 0, s, _, _ => s
  | n + 1, c :: cs, pat, rep =>
    if pat ≠ [] ∧ pat.isPrefixOf (c :: cs) then
      rep ++ replaceAllGo n ((c :: cs).drop pat.length) pat rep
    else
      c :: replaceAllGo n cs pat rep

/-- Python `s.replace(pat, rep)` for a non-empty pattern: replace every
non-overlapping occurrence of `pat` in `s` by `rep`, scanning left to
right and never rescanning replaced text. -/
def replaceAll (s pat rep : Str) : Str := replaceAllGo s.length s pat rep

/-- Fuel-driven worker for `pySplit`. -/
def pySplitGo : Nat → Str → Str → List Str
  | _, [], _ => [[]]
  | 0, s, _ => [s]
  | n + 1, c :: cs, sep =>
    if sep ≠ [] ∧ sep.isPrefixOf (c :: cs) then
      [] :: pySplitGo n ((c :: cs).drop sep.length) sep
    else
      match pySplitGo n cs sep with
      | [] => [[c]]
      | h :: t => (c :: h) :: t

/-- Python `s.split(sep)` for a non-empty separator: the list of segments
of `s` between non-overlapping occurrences of `sep`. -/
def pySplit (sep s : Str) : List Str := pySplitGo s.length s sep

/-- Python `sub in s`: `sub` occurs as a contiguous substring of `s`. -/
def containsSub : Str → Str → Bool
  | [], sub => sub.isEmpty
  | c :: cs, sub => sub.isPrefixOf (c :: cs) || containsSub cs sub

/-- Number of positions of `s` at which `sub` occurs as a substring. -/
def countOccur : Str → Str → Nat
  | [], sub => if sub.isEmpty then 1 else 0
  | c :: cs, sub => (if sub.isPrefixOf (c :: cs) then 1 else 0) + countOccur cs sub

/-- Python `l[:n]`: an integer slice bound, negative bounds counting from
the end of the list. -/
def pySlice {α : Type} (l : List α) (n : Int) : List α :=
  if n < 0 then l.take (l.length - (-n).toNat) else l.take n.toNat

/-- `cleanBefore a pat` holds when, in any string of the form
`a ++ pat ++ b`, the first occurrence of `pat` is the explicit one at
position `a.length` (no occurrence starts inside `a`). -/
def cleanBefore (a pat : Str) : Bool :=
  a.tails.all fun a2 => a2.isEmpty || !(pat.isPrefixOf (a2 ++ pat))

/-! ### Data model (src/main.py) -/

/-- A news article record: the dictionary keys used by the program, each
`none` when the key is absent (`dict.get` supplies the default). -/
structure Article where
  title : Option Str
  source : Option Str
  time : Option Str
  description : Option Str
  url : Option Str
  image : Option Str
deriving DecidableEq

/-- Arguments dictionary of the `get_news` tool (`arguments.get` reads
each key with a default, so each key is optional). -/
structure Arguments where
  topic : Option Str
  format : Option Str
  limit : Option Int
deriving DecidableEq

/-- A Python exception escaping `call_tool`. -/
inductive PyErr where
  | valueError (msg : Str)
  | indexError
deriving DecidableEq

/-! ### Template file names and placeholder/marker literals -/

def news_card_file : Str := "news_card.html".data
def news_carousel_file : Str := "news_carousel.html".data

def section_title_ph : Str := "\x7b\x7bsection_title\x7d\x7d".data
def articlesStart : Str := "\x7b\x7b#articles\x7d\x7d".data
def articlesEnd : Str := "\x7b\x7b/articles\x7d\x7d".data
def title_ph : Str := "\x7b\x7btitle\x7d\x7d".data
def source_ph : Str := "\x7b\x7bsource\x7d\x7d".data
def time_ph : Str := "\x7b\x7btime\x7d\x7d".data
def description_ph : Str := "\x7b\x7bdescription\x7d\x7d".data
def url_ph : Str := "\x7b\x7burl\x7d\x7d".data

/-! ### The program (src/main.py, lines 28-148) -/

/-- `load_template` (main.py:28-35): read the template file, and on any
failure catch the exception and return the empty string. -/
def load_template (fs : FS) (filename : Str) : Str :=
  (fs filename).getD []

/-- `format_news_card` (main.py:37-44): chain of five `str.replace`
calls on the loaded card template; `url` defaults to `"#"`, the other
fields default to the empty string. -/
def format_news_card (fs : FS) (article : Article) : Str :=
  let template := load_template fs news_card_file
  replaceAll
    (replaceAll
      (replaceAll
        (replaceAll
          (replaceAll template title_ph (article.title.getD []))
          source_ph (article.source.getD []))
        time_ph (article.time.getD []))
      description_ph (article.description.getD []))
    url_ph (article.url.getD "#".data)

/-- The per-article HTML fragment built by the f-string of
`format_news_carousel` (main.py:53-63). -/
def carousel_item (article : Article) : Str :=
  "\n      <div class=\x22carousel-item\x22>\n        <article>\n          <img src=\x22".data
  ++ article.image.getD []
  ++ "\x22 alt=\x22".data
  ++ article.title.getD []
  ++ "\x22 onerror=\x22this.style.display=\x27none\x27\x22>\n          <h3>".data
  ++ article.title.getD []
  ++ "</h3>\n          <p class=\x22source\x22>".data
  ++ article.source.getD []
  ++ " • ".data
  ++ article.time.getD []
  ++ "</p>\n          <p class=\x22description\x22>".data
  ++ article.description.getD []
  ++ "</p>\n          <a href=\x22".data
  ++ article.url.getD "#".data
  ++ "\x22 target=\x22_blank\x22>Read more →</a>\n        </article>\n      </div>\n".data

/-- `format_news_carousel` (main.py:46-71).  The loop `items += f-string`
concatenates one `carousel_item` per article, in order.  The final
assignment is a Python conditional expression: when the substituted
result contains the start marker, the text before the first start marker,
the items, and `result.split("...the end marker...")[1]` are concatenated
— the index `[1]` raises `IndexError` (modelled as `none`) when the end
marker is absent; otherwise the raw `template` (not `result`) is
returned. -/
def format_news_carousel (fs : FS) (articles : List Article)
    (section_title : Str) : Option Str :=
  let template := load_template fs news_carousel_file
  let items := (articles.map carousel_item).flatten
  let result := replaceAll template section_title_ph section_title
  if containsSub result articlesStart then
    match pySplit articlesEnd result with
    | _ :: seg1 :: _ =>
      some ((pySplit articlesStart result).headD [] ++ items ++ seg1)
    | _ => none
  else
    some template

/-- The mock article list of `call_tool` (main.py:113-137); `now` models
`datetime.now().strftime("%H:%M")`. -/
def mock_articles (topic now : Str) : List Article :=
  [ { title := some ("Breaking: ".data ++ topic ++ " - Latest Developments".data)
      source := some "News Source".data
      time := some now
      description := some ("Latest updates on ".data ++ topic
        ++ " with comprehensive coverage and analysis.".data)
      url := some "https://example.com/news/1".data
      image := some "https://via.placeholder.com/300x160".data }
  , { title := some (topic ++ ": Expert Analysis and Insights".data)
      source := some "Tech Daily".data
      time := some "1h ago".data
      description := some ("In-depth analysis of ".data ++ topic
        ++ " and its implications for the industry.".data)
      url := some "https://example.com/news/2".data
      image := some "https://via.placeholder.com/300x160".data }
  , { title := some ("Global Impact: ".data ++ topic ++ " Trends".data)
      source := some "World News".data
      time := some "2h ago".data
      description := some ("How ".data ++ topic
        ++ " is affecting markets and communities worldwide.".data)
      url := some "https://example.com/news/3".data
      image := some "https://via.placeholder.com/300x160".data }
  ]

/-- `call_tool` (main.py:104-148): dispatch on the tool name; for
`get_news`, slice the mock articles to `limit` and render either the
carousel or — for any other format value — the first article as a card,
falling back to a fixed text when no article survives the slice.  An
unknown tool name raises `ValueError(f"Unknown tool: \x7bname\x7d")`. -/
def call_tool (fs : FS) (now : Str) (name : Str) (arguments : Arguments) :
    Except PyErr (List Str) :=
  if name = "get_news".data then
    let topic := arguments.topic.getD []
    let format_type := arguments.format.getD "carousel".data
    let limit := arguments.limit.getD 5
    let mock := pySlice (mock_articles topic now) limit
    if format_type = "carousel".data then
      match format_news_carousel fs mock (topic ++ " News".data) with
      | some html => Except.ok [html]
      | none => Except.error PyErr.indexError
    else
      match mock with
      | a :: _ => Except.ok [format_news_card fs a]
      | [] => Except.ok ["No news available".data]
  else
    Except.error (PyErr.valueError ("Unknown tool: ".data ++ name))

/-! ### Modelled template assets

The asset files `news_card.html` and `news_carousel.html` are not part of
src/; their shape is taken from the spec. -/

def carousel_t1 : Str := "<section class=\x22news-carousel\x22>\n  <h2>".data
def carousel_t2 : Str := "</h2>\n  <div class=\x22carousel-track\x22>\n".data
def carousel_mid : Str := "\n    <div class=\x22carousel-item\x22>item</div>\n".data
def carousel_t3 : Str := "  </div>\n</section>\n".data

/-- Modelled from the spec: the asset file `news_carousel.html` is not
under src/; per the spec it is a text blob containing the
`section_title` placeholder and one repeatable region delimited by the
start/end marker pair. -/
def news_carousel_template : Str :=
  carousel_t1 ++ section_title_ph ++ carousel_t2 ++ articlesStart
    ++ carousel_mid ++ articlesEnd ++ carousel_t3

/-- Modelled from the spec: the asset file `news_card.html` is not under
src/; per the spec it is a text blob containing the five named
placeholders. -/
def news_card_template : Str :=
  "<div class=\x22news-card\x22>\n  <h3>\x7b\x7btitle\x7d\x7d</h3>\n  <p>\x7b\x7bsource\x7d\x7d • \x7b\x7btime\x7d\x7d</p>\n  <p>\x7b\x7bdescription\x7d\x7d</p>\n  <a href=\x22\x7b\x7burl\x7d\x7d\x22>Read more</a>\n</div>\n".data

/-! ### Unfolding equations for the fuel-driven string functions -/

theorem replaceAllGo_fuel (n : Nat) : ∀ (m : Nat) (s pat rep : Str),
    s.length ≤ n → s.length ≤ m →
    replaceAllGo n s pat rep = replaceAllGo m s pat rep := by
  induction n with
  | zero =>
    intro m s pat rep hn hm
    have hs : s = [] := List.eq_nil_of_length_eq_zero (Nat.le_zero.mp hn)
    subst hs
    cases m <;> rfl
  | succ n ih =>
    intro m s pat rep hn hm
    cases s with
    | nil => cases m <;> rfl
    | cons c cs =>
      cases m with
      | zero => simp at hm
      | succ m =>
        simp only [replaceAllGo]
        by_cases h : pat ≠ [] ∧ pat.isPrefixOf (c :: cs)
        · simp only [if_pos h]
          have hp : 0 < pat.length := List.length_pos.mpr h.1
          simp only [List.length_cons] at hn hm
          have hlen : ((c :: cs).drop pat.length).length ≤ n := by
            simp only [List.length_drop, List.length_cons]
            omega
          have hlen' : ((c :: cs).drop pat.length).length ≤ m := by
            simp only [List.length_drop, List.length_cons]
            omega
          rw [ih m _ pat rep hlen hlen']
        · simp only [if_neg h]
          simp only [List.length_cons] at hn hm
          rw [ih m cs pat rep (by omega) (by omega)]

theorem replaceAll_nil (pat rep : Str) : replaceAll [] pat rep = [] := rfl

theorem replaceAll_cons (c : Char) (cs pat rep : Str) :
    replaceAll (c :: cs) pat rep =
      if pat ≠ [] ∧ pat.isPrefixOf (c :: cs) then
        rep ++ replaceAll ((c :: cs).drop pat.length) pat rep
      else
        c :: replaceAll cs pat rep := by
  show replaceAllGo (cs.length + 1) (c :: cs) pat rep = _
  simp only [replaceAllGo]
  by_cases h : pat ≠ [] ∧ pat.isPrefixOf (c :: cs)
  · simp only [if_pos h]
    congr 1
    apply replaceAllGo_fuel
    · have hp : 0 < pat.length := List.length_pos.mpr h.1
      simp only [List.length_drop, List.length_cons]
      omega
    · exact Nat.le_refl _
  · simp only [if_neg h]
    rfl

theorem pySplitGo_fuel (n : Nat) : ∀ (m : Nat) (s sep : Str),
    s.length ≤ n → s.length ≤ m →
    pySplitGo n s sep = pySplitGo m s sep := by
  induction n with
  | zero =>
    intro m s sep hn hm
    have hs : s = [] := List.eq_nil_of_length_eq_zero (Nat.le_zero.mp hn)
    subst hs
    cases m <;> rfl
  | succ n ih =>
    intro m s sep hn hm
    cases s with
    | nil => cases m <;> rfl
    | cons c cs =>
      cases m with
      | zero => simp at hm
      | succ m =>
        simp only [pySplitGo]
        by_cases h : sep ≠ [] ∧ sep.isPrefixOf (c :: cs)
        · simp only [if_pos h]
          have hp : 0 < sep.length := List.length_pos.mpr h.1
          simp only [List.length_cons] at hn hm
          rw [ih m _ sep
            (by simp only [List.length_drop, List.length_cons]; omega)
            (by simp only [List.length_drop, List.length_cons]; omega)]
        · simp only [if_neg h]
          simp only [List.length_cons] at hn hm
          rw [ih m cs sep (by omega) (by omega)]

theorem pySplit_nil (sep : Str) : pySplit sep [] = [[]] := rfl

theorem pySplit_cons (sep : Str) (c : Char) (cs : Str) :
    pySplit sep (c :: cs) =
      if sep ≠ [] ∧ sep.isPrefixOf (c :: cs) then
        [] :: pySplit sep ((c :: cs).drop sep.length)
      else
        match pySplit sep cs with
        | [] => [[c]]
        | h :: t => (c :: h) :: t := by
  show pySplitGo (cs.length + 1) (c :: cs) sep = _
  simp only [pySplitGo]
  by_cases h : sep ≠ [] ∧ sep.isPrefixOf (c :: cs)
  · simp only [if_pos h]
    congr 1
    apply pySplitGo_fuel
    · have hp : 0 < sep.length := List.length_pos.mpr h.1
      simp only [List.length_drop, List.length_cons]
      omega
    · exact Nat.le_refl _
  · simp only [if_neg h]
    rfl

/-! ### Combinatorial lemmas about occurrences -/

theorem isPrefixOf_append_of_le (pat m n : Str) (h : pat.length ≤ m.length) :
    pat.isPrefixOf (m ++ n) = pat.isPrefixOf m := by
  have key : pat <+: (m ++ n) ↔ pat <+: m := by
    rw [List.prefix_iff_eq_take, List.prefix_iff_eq_take,
      List.take_append_eq_append_take, Nat.sub_eq_zero_of_le h,
      List.take_zero, List.append_nil]
  apply Bool.coe_iff_coe.mp
  rw [List.isPrefixOf_iff_prefix, List.isPrefixOf_iff_prefix]
  exact key

theorem isPrefixOf_eq_false_of_lt (pat m : Str) (h : m.length < pat.length) :
    pat.isPrefixOf m = false := by
  cases hb : pat.isPrefixOf m
  · rfl
  · have := (List.isPrefixOf_iff_prefix.mp hb).length_le
    omega

theorem mem_of_isPrefixOf_append_cons (pat m n : Str) (d : Char)
    (h : pat.isPrefixOf (m ++ d :: n) = true) (hl : m.length < pat.length) :
    d ∈ pat := by
  have hp := List.isPrefixOf_iff_prefix.mp h
  rw [List.prefix_iff_eq_take, List.take_append_eq_append_take,
    List.take_of_length_le (Nat.le_of_lt hl)] at hp
  have h2 : pat.length - m.length = (pat.length - m.length - 1) + 1 := by omega
  rw [h2, List.take_succ_cons] at hp
  rw [hp]
  exact List.mem_append_right m (List.mem_cons_self d _)

theorem isEmpty_eq_false_of_ne (s : Str) (h : s ≠ []) : s.isEmpty = false := by
  cases s with
  | nil => exact absurd rfl h
  | cons c cs => rfl

theorem countOccur_nil_of_ne (sub : Str) (h : sub ≠ []) :
    countOccur [] sub = 0 := by
  simp [countOccur, isEmpty_eq_false_of_ne sub h]

theorem countOccur_append_cons (x y sub : Str) (d : Char)
    (hsub : sub ≠ []) (hd : d ∉ sub) :
    countOccur (x ++ d :: y) sub = countOccur x sub + countOccur y sub := by
  induction x with
  | nil =>
    simp only [List.nil_append, countOccur]
    have hfalse : sub.isPrefixOf (d :: y) = false := by
      cases hb : sub.isPrefixOf (d :: y)
      · rfl
      · exact absurd
          (mem_of_isPrefixOf_append_cons sub [] y d (by simpa using hb)
            (by simpa using List.length_pos.mpr hsub)) hd
    rw [hfalse]
    simp [isEmpty_eq_false_of_ne sub hsub]
  | cons c x ih =>
    simp only [List.cons_append, countOccur, List.append_eq]
    rw [ih]
    have hcheck : sub.isPrefixOf (c :: (x ++ d :: y)) = sub.isPrefixOf (c :: x) := by
      by_cases hlen : sub.length ≤ (c :: x).length
      · have := isPrefixOf_append_of_le sub (c :: x) (d :: y) hlen
        simpa using this
      · push_neg at hlen
        rw [isPrefixOf_eq_false_of_lt sub (c :: x) hlen]
        cases hb : sub.isPrefixOf (c :: (x ++ d :: y))
        · rfl
        · exact absurd
            (mem_of_isPrefixOf_append_cons sub (c :: x) y d (by simpa using hb) hlen) hd
    simp only [hcheck]
    omega

theorem countOccur_append_single (x sub : Str) (d : Char) (hsub : sub ≠ [])
    (hlast : sub.getLast? ≠ some d) :
    countOccur (x ++ [d]) sub = countOccur x sub := by
  induction x with
  | nil =>
    simp only [List.nil_append, countOccur]
    have hfalse : sub.isPrefixOf [d] = false := by
      cases hb : sub.isPrefixOf [d]
      · rfl
      · exfalso
        have hp := List.isPrefixOf_iff_prefix.mp hb
        have hle := hp.length_le
        have hpos := List.length_pos.mpr hsub
        simp only [List.length_singleton] at hle
        have heq : sub = [d] := hp.eq_of_length (by simp; omega)
        rw [heq] at hlast
        simp at hlast
    rw [hfalse]
    simp
  | cons c x ih =>
    simp only [List.cons_append, countOccur, List.append_eq]
    rw [ih]
    have hcheck : sub.isPrefixOf (c :: (x ++ [d])) = sub.isPrefixOf (c :: x) := by
      by_cases hlen : sub.length ≤ (c :: x).length
      · have := isPrefixOf_append_of_le sub (c :: x) [d] hlen
        simpa using this
      · push_neg at hlen
        rw [isPrefixOf_eq_false_of_lt sub (c :: x) hlen]
        cases hb : sub.isPrefixOf (c :: (x ++ [d]))
        · rfl
        · exfalso
          have hp := List.isPrefixOf_iff_prefix.mp hb
          have hle := hp.length_le
          have heq : sub = c :: (x ++ [d]) :=
            hp.eq_of_length (by simp at hle hlen ⊢; omega)
          apply hlast
          rw [heq, show c :: (x ++ [d]) = (c :: x) ++ [d] from rfl]
          exact List.getLast?_concat _
    simp only [hcheck]

/-! ### Substitution and split around a clean occurrence -/

theorem cleanBefore_of_cons (c : Char) (a pat : Str)
    (h : cleanBefore (c :: a) pat = true) : cleanBefore a pat = true := by
  rw [cleanBefore, List.all_eq_true] at h ⊢
  intro x hx
  apply h
  rw [List.mem_tails] at hx ⊢
  exact hx.trans (List.suffix_cons c a)

theorem cleanBefore_self (a pat : Str) (h : cleanBefore a pat = true)
    (hne : a ≠ []) : pat.isPrefixOf (a ++ pat) = false := by
  rw [cleanBefore, List.all_eq_true] at h
  have hmem : a ∈ a.tails := (List.mem_tails a a).mpr (List.suffix_refl a)
  have := h a hmem
  simp only [Bool.or_eq_true, Bool.not_eq_true'] at this
  rcases this with h1 | h2
  · exact absurd (List.isEmpty_iff.mp h1) hne
  · exact h2

theorem containsSub_sandwich (a t b : Str) :
    containsSub (a ++ t ++ b) t = true := by
  induction a with
  | nil =>
    simp only [List.nil_append]
    cases t with
    | nil =>
      cases b with
      | nil => rfl
      | cons c cs => simp [containsSub]
    | cons c cs =>
      rw [show (c :: cs) ++ b = c :: (cs ++ b) from rfl, containsSub]
      have hpre : (c :: cs).isPrefixOf (c :: (cs ++ b)) = true := by
        rw [List.isPrefixOf_iff_prefix]
        exact List.prefix_append (c :: cs) b
      simp [hpre]
  | cons c a ih =>
    rw [show ((c :: a) ++ t) ++ b = c :: ((a ++ t) ++ b) from rfl, containsSub, ih]
    simp

theorem containsSub_empty_right (s : Str) : containsSub s [] = true := by
  cases s with
  | nil => rfl
  | cons c cs => simp [containsSub]

theorem countOccur_eq_zero (s sub : Str) (h : containsSub s sub = false) :
    countOccur s sub = 0 := by
  induction s with
  | nil =>
    rw [containsSub] at h
    simp [countOccur, h]
  | cons c cs ih =>
    rw [containsSub] at h
    simp only [Bool.or_eq_false_iff] at h
    simp [countOccur, h.1, ih h.2]

theorem replaceAll_of_not_contains (s pat rep : Str)
    (h : containsSub s pat = false) : replaceAll s pat rep = s := by
  induction s with
  | nil => rfl
  | cons c cs ih =>
    rw [containsSub] at h
    simp only [Bool.or_eq_false_iff] at h
    rw [replaceAll_cons, if_neg (by rintro ⟨-, hp⟩; rw [h.1] at hp; exact absurd hp (by simp)),
      ih h.2]

theorem replaceAll_clean_append (a pat b rep : Str) (hpat : pat ≠ [])
    (hclean : cleanBefore a pat = true) :
    replaceAll (a ++ pat ++ b) pat rep = a ++ rep ++ replaceAll b pat rep := by
  induction a with
  | nil =>
    simp only [List.nil_append]
    cases pat with
    | nil => exact absurd rfl hpat
    | cons p ps =>
      rw [show (p :: ps) ++ b = p :: (ps ++ b) from rfl, replaceAll_cons]
      have hpre : (p :: ps).isPrefixOf (p :: (ps ++ b)) = true := by
        rw [List.isPrefixOf_iff_prefix]
        exact List.prefix_append (p :: ps) b
      rw [if_pos ⟨hpat, hpre⟩]
      have hdrop : (p :: (ps ++ b)).drop (p :: ps).length = b :=
        List.drop_left (p :: ps) b
      rw [hdrop]
  | cons c a ih =>
    have hstep : ¬ ((pat ≠ []) ∧ pat.isPrefixOf (c :: ((a ++ pat) ++ b))) := by
      rintro ⟨-, hpre⟩
      have hself := cleanBefore_self (c :: a) pat hclean (by simp)
      have htr := isPrefixOf_append_of_le pat ((c :: a) ++ pat) b (by simp; omega)
      rw [show ((c :: a) ++ pat) ++ b = c :: ((a ++ pat) ++ b) from rfl] at htr
      rw [htr] at hpre
      rw [show (c :: a) ++ pat = c :: (a ++ pat) from rfl] at hself
      rw [show (c :: a) ++ pat = c :: (a ++ pat) from rfl] at hpre
      rw [hself] at hpre
      exact absurd hpre (by simp)
    rw [show ((c :: a) ++ pat) ++ b = c :: ((a ++ pat) ++ b) from rfl, replaceAll_cons,
      if_neg hstep, ih (cleanBefore_of_cons c a pat hclean)]
    rfl

theorem pySplit_of_not_contains (s sep : Str)
    (h : containsSub s sep = false) : pySplit sep s = [s] := by
  induction s with
  | nil => rfl
  | cons c cs ih =>
    rw [containsSub] at h
    simp only [Bool.or_eq_false_iff] at h
    rw [pySplit_cons, if_neg (by rintro ⟨-, hp⟩; rw [h.1] at hp; exact absurd hp (by simp)),
      ih h.2]

theorem pySplit_clean_append (a sep b : Str) (hsep : sep ≠ [])
    (hclean : cleanBefore a sep = true) :
    pySplit sep (a ++ sep ++ b) = a :: pySplit sep b := by
  induction a with
  | nil =>
    simp only [List.nil_append]
    cases sep with
    | nil => exact absurd rfl hsep
    | cons p ps =>
      rw [show (p :: ps) ++ b = p :: (ps ++ b) from rfl, pySplit_cons]
      have hpre : (p :: ps).isPrefixOf (p :: (ps ++ b)) = true := by
        rw [List.isPrefixOf_iff_prefix]
        exact List.prefix_append (p :: ps) b
      rw [if_pos ⟨hsep, hpre⟩]
      have hdrop : (p :: (ps ++ b)).drop (p :: ps).length = b :=
        List.drop_left (p :: ps) b
      rw [hdrop]
  | cons c a ih =>
    have hstep : ¬ ((sep ≠ []) ∧ sep.isPrefixOf (c :: ((a ++ sep) ++ b))) := by
      rintro ⟨-, hpre⟩
      have hself := cleanBefore_self (c :: a) sep hclean (by simp)
      have htr := isPrefixOf_append_of_le sep ((c :: a) ++ sep) b (by simp; omega)
      rw [show ((c :: a) ++ sep) ++ b = c :: ((a ++ sep) ++ b) from rfl] at htr
      rw [htr] at hpre
      rw [show (c :: a) ++ sep = c :: (a ++ sep) from rfl] at hself
      rw [show (c :: a) ++ sep = c :: (a ++ sep) from rfl] at hpre
      rw [hself] at hpre
      exact absurd hpre (by simp)
    rw [show ((c :: a) ++ sep) ++ b = c :: ((a ++ sep) ++ b) from rfl, pySplit_cons,
      if_neg hstep, ih (cleanBefore_of_cons c a sep hclean)]

theorem pySplit_ne_nil (sep s : Str) : pySplit sep s ≠ [] := by
  induction s with
  | nil => simp [pySplit_nil]
  | cons c cs ih =>
    rw [pySplit_cons]
    split
    · simp
    · cases hsplit : pySplit sep cs with
      | nil => exact absurd hsplit ih
      | cons hd tl => simp

theorem two_le_pySplit_length (s sep : Str) (hsep : sep ≠ [])
    (h : containsSub s sep = true) : 2 ≤ (pySplit sep s).length := by
  induction s with
  | nil =>
    rw [containsSub] at h
    exact absurd (List.isEmpty_iff.mp h) hsep
  | cons c cs ih =>
    rw [pySplit_cons]
    by_cases hb : sep.isPrefixOf (c :: cs)
    · rw [if_pos ⟨hsep, hb⟩]
      cases hsp : pySplit sep ((c :: cs).drop sep.length) with
      | nil => exact absurd hsp (pySplit_ne_nil sep _)
      | cons a t => simp
    · rw [if_neg (by rintro ⟨-, hp⟩; exact absurd hp hb)]
      rw [containsSub] at h
      simp only [hb, Bool.false_or] at h
      have h2 := ih h
      cases hsp : pySplit sep cs with
      | nil => exact absurd hsp (pySplit_ne_nil sep cs)
      | cons a t =>
        rw [hsp] at h2
        simp at h2 ⊢
        omega

/-! ### Spec-side card rendering definitions (for claim C3) -/

/-- The five placeholder substitutions of the card path, in source order,
with the `url` field defaulting to `"#"` as the code does. -/
def card_substitutions (article : Article) : List (Str × Str) :=
  [ (title_ph, article.title.getD [])
  , (source_ph, article.source.getD [])
  , (time_ph, article.time.getD [])
  , (description_ph, article.description.getD [])
  , (url_ph, article.url.getD "#".data) ]

/-- Spec-side card renderer: fold the five placeholder substitutions over
the template, in order. -/
def render_card_spec (tmpl : Str) (article : Article) : Str :=
  (card_substitutions article).foldl (fun acc p => replaceAll acc p.1 p.2) tmpl

/-- The card renderer exactly as claim C3 words it: every absent field,
including `url`, substitutes empty text. -/
def render_card_claimed (tmpl : Str) (article : Article) : Str :=
  replaceAll
    (replaceAll
      (replaceAll
        (replaceAll
          (replaceAll tmpl title_ph (article.title.getD []))
          source_ph (article.source.getD []))
        time_ph (article.time.getD []))
      description_ph (article.description.getD []))
    url_ph (article.url.getD [])

/-! ### Claim C1 -/

/-- C1 is false as stated: with the carousel template
`"\x7b\x7bsection_title\x7d\x7darticles\x7d\x7d"`, which does not contain the start
marker `"\x7b\x7b#articles\x7d\x7d"`, and section title `"\x7b\x7b#"`, the section-title
substitution creates the start marker, so `format_news_carousel` takes the
marker branch, fails to find the end marker, and raises `IndexError`
(modelled as `none`) instead of returning the raw template. -/
theorem c1_counterexample :
    containsSub "\x7b\x7bsection_title\x7d\x7darticles\x7d\x7d".data articlesStart = false ∧
    format_news_carousel (fun _ => some "\x7b\x7bsection_title\x7d\x7darticles\x7d\x7d".data)
      [] "\x7b\x7b#".data
      ≠ some "\x7b\x7bsection_title\x7d\x7darticles\x7d\x7d".data := by
  constructor
  · decide
  · set_option maxRecDepth 100000 in decide

/-- C1 (amended): for every article list and section title, if the
carousel template AFTER the section-title substitution does not contain
the repeatable-region start marker `"\x7b\x7b#articles\x7d\x7d"` (in particular,
whenever the template lacks it and the substitution cannot create it),
then `format_news_carousel` returns the raw unmodified template text,
with neither the section-title substitution applied nor any per-article
fragment inserted. -/
theorem c1_amended (fs : FS) (tmpl : Str) (articles : List Article) (st : Str)
    (hfs : fs news_carousel_file = some tmpl)
    (h : containsSub (replaceAll tmpl section_title_ph st) articlesStart = false) :
    format_news_carousel fs articles st = some tmpl := by
  simp only [format_news_carousel, load_template, hfs, Option.getD_some]
  rw [if_neg (by rw [h]; simp)]

/-- Witness for C1 (amended) at a concrete template lacking the marker. -/
theorem c1_amended_witness :
    ((fun _ => some "plain template".data : FS) news_carousel_file
      = some "plain template".data) ∧
    containsSub (replaceAll "plain template".data section_title_ph "News".data)
      articlesStart = false ∧
    format_news_carousel (fun _ => some "plain template".data) [] "News".data
      = some "plain template".data :=
  ⟨rfl, by set_option maxRecDepth 100000 in decide,
    c1_amended _ _ _ _ rfl (by set_option maxRecDepth 100000 in decide)⟩

/-! ### Claim C2 -/

/-- C2 is false as stated: on a carousel template consisting of the start
marker alone (so the start marker is present and the end marker absent),
`format_news_carousel` evaluates `result.split("\x7b\x7b/articles\x7d\x7d")[1]` on a
one-element list and raises `IndexError` — modelled as `none` — so the
rendering boundary can raise besides the dispatch-layer unknown-operation
error. -/
theorem c2_counterexample :
    containsSub articlesStart articlesStart = true ∧
    containsSub articlesStart articlesEnd = false ∧
    format_news_carousel (fun _ => some articlesStart) [] [] = none := by
  refine ⟨by decide, by decide, ?_⟩
  set_option maxRecDepth 100000 in decide

/-- C2 (amended): rendering raises no exception provided that, whenever
the section-title-substituted carousel template contains the start marker
`"\x7b\x7b#articles\x7d\x7d"`, it also contains the end marker `"\x7b\x7b/articles\x7d\x7d"`;
under that proviso `format_news_carousel` returns a value for every
article list and section title (and the card path is total), leaving the
dispatch-layer unrecognized-operation error as the only failure. -/
theorem c2_amended (fs : FS) (tmpl : Str) (articles : List Article) (st : Str)
    (hfs : fs news_carousel_file = some tmpl)
    (h : containsSub (replaceAll tmpl section_title_ph st) articlesStart = true →
      containsSub (replaceAll tmpl section_title_ph st) articlesEnd = true) :
    (format_news_carousel fs articles st).isSome = true := by
  simp only [format_news_carousel, load_template, hfs, Option.getD_some]
  by_cases hc : containsSub (replaceAll tmpl section_title_ph st) articlesStart = true
  · rw [if_pos (by rw [hc])]
    have hlen := two_le_pySplit_length _ articlesEnd (by decide) (h hc)
    cases hsp : pySplit articlesEnd (replaceAll tmpl section_title_ph st) with
    | nil => exact absurd hsp (pySplit_ne_nil _ _)
    | cons a t =>
      cases t with
      | nil => rw [hsp] at hlen; simp at hlen
      | cons b t2 => simp
  · rw [if_neg (by rw [Bool.eq_false_iff.mpr hc]; simp)]
    simp

/-- Witness for C2 (amended) at the modelled carousel template. -/
theorem c2_amended_witness :
    ((fun _ => some news_carousel_template : FS) news_carousel_file
      = some news_carousel_template) ∧
    (containsSub (replaceAll news_carousel_template section_title_ph
        "Tech News".data) articlesStart = true →
      containsSub (replaceAll news_carousel_template section_title_ph
        "Tech News".data) articlesEnd = true) ∧
    (format_news_carousel (fun _ => some news_carousel_template) []
      "Tech News".data).isSome = true :=
  ⟨rfl, by set_option maxRecDepth 100000 in decide,
    c2_amended _ _ _ _ rfl (by set_option maxRecDepth 100000 in decide)⟩

/-! ### Claim C3 -/

/-- C3 is false as stated: on an article with no `url` field the code
substitutes `"#"` for the `url` placeholder, not empty text as the claim
asserts (`render_card_claimed` is the substitution the claim describes). -/
theorem c3_counterexample :
    format_news_card (fun _ => some url_ph) ⟨none, none, none, none, none, none⟩
      = "#".data ∧
    render_card_claimed url_ph ⟨none, none, none, none, none, none⟩ = [] ∧
    format_news_card (fun _ => some url_ph) ⟨none, none, none, none, none, none⟩
      ≠ render_card_claimed url_ph ⟨none, none, none, none, none, none⟩ := by
  refine ⟨?_, ?_, ?_⟩
  · set_option maxRecDepth 100000 in decide
  · set_option maxRecDepth 100000 in decide
  · set_option maxRecDepth 100000 in decide

/-- C3 (amended): `format_news_card` replaces each of the five named
placeholders with the corresponding article field in source order —
empty text for an absent `title`, `source`, `time` or `description`, and
`"#"` for an absent `url` — and its output does not depend on the
article's `image` field. -/
theorem c3_amended (fs : FS) (article : Article) :
    format_news_card fs article
      = render_card_spec (load_template fs news_card_file) article ∧
    (∀ img, format_news_card fs { article with image := img }
      = format_news_card fs article) :=
  ⟨rfl, fun _ => rfl⟩

/-! ### Claim C7 -/

/-- C7: when template loading fails (`fs` returns `none`),
`load_template` returns the empty string rather than raising, and both
rendering paths then produce empty output for every article, article
list and section title. -/
theorem c7_load_failure (fs : FS)
    (hcard : fs news_card_file = none)
    (hcarousel : fs news_carousel_file = none) :
    load_template fs news_card_file = [] ∧
    load_template fs news_carousel_file = [] ∧
    (∀ article, format_news_card fs article = []) ∧
    (∀ articles st, format_news_carousel fs articles st = some []) := by
  refine ⟨?_, ?_, ?_, ?_⟩
  · simp [load_template, hcard]
  · simp [load_template, hcarousel]
  · intro article
    simp [format_news_card, load_template, hcard, replaceAll_nil]
  · intro articles st
    simp only [format_news_carousel, load_template, hcarousel, Option.getD_none,
      replaceAll_nil]
    rw [if_neg (by rw [show containsSub [] articlesStart = false from rfl]; simp)]

/-- Witness for C7 on the everywhere-failing file system. -/
theorem c7_witness :
    ((fun _ => none : FS) news_card_file = none) ∧
    format_news_card (fun _ => none) ⟨none, none, none, none, none, none⟩ = [] ∧
    format_news_carousel (fun _ => none) [] "News".data = some [] :=
  ⟨rfl, (c7_load_failure (fun _ => none) rfl rfl).2.2.1 _,
    (c7_load_failure (fun _ => none) rfl rfl).2.2.2 [] _⟩

/-! ### Claim C4 -/

/-- C4: for every topic, clock string and integer limit L with 0 ≤ L ≤ 3,
the sliced mock article list inside get_news has exactly min(L,3)
entries, and every entry's title contains the topic as a substring. -/
theorem c4_mock_articles (topic now : Str) (L : Int)
    (h0 : 0 ≤ L) (h3 : L ≤ 3) :
    (pySlice (mock_articles topic now) L).length = min L.toNat 3 ∧
    ∀ a ∈ pySlice (mock_articles topic now) L,
      containsSub (a.title.getD []) topic = true := by
  have hslice : pySlice (mock_articles topic now) L
      = (mock_articles topic now).take L.toNat := by
    rw [pySlice, if_neg (by omega)]
  constructor
  · rw [hslice, List.length_take]
    simp [mock_articles]
  · intro a ha
    rw [hslice] at ha
    have hmem := List.mem_of_mem_take ha
    simp only [mock_articles, List.mem_cons, List.not_mem_nil, or_false] at hmem
    rcases hmem with rfl | rfl | rfl
    · exact containsSub_sandwich "Breaking: ".data topic " - Latest Developments".data
    · simpa using containsSub_sandwich [] topic ": Expert Analysis and Insights".data
    · exact containsSub_sandwich "Global Impact: ".data topic " Trends".data

/-- Witness for C4 at topic "AI" and limit 2. -/
theorem c4_witness :
    ((0 : Int) ≤ 2 ∧ (2 : Int) ≤ 3) ∧
    (pySlice (mock_articles "AI".data "10:00".data) 2).length = min (2 : Int).toNat 3 ∧
    ∀ a ∈ pySlice (mock_articles "AI".data "10:00".data) 2,
      containsSub (a.title.getD []) "AI".data = true :=
  ⟨⟨by decide, by decide⟩, c4_mock_articles "AI".data "10:00".data 2 (by decide) (by decide)⟩

/-! ### Claim C8 -/

/-- C8: dispatching any operation name other than get_news fails with a
ValueError whose message names the unknown operation, and dispatching
get_news never raises that error (its only possible failure is the
carousel IndexError, a different exception). -/
theorem c8_dispatch (fs : FS) (now : Str) (args : Arguments) :
    (∀ name, name ≠ "get_news".data →
      call_tool fs now name args
        = Except.error (PyErr.valueError ("Unknown tool: ".data ++ name))) ∧
    (∀ msg, call_tool fs now "get_news".data args
      ≠ Except.error (PyErr.valueError msg)) := by
  constructor
  · intro name hname
    simp only [call_tool]
    rw [if_neg hname]
  · intro msg
    simp only [call_tool]
    rw [if_pos trivial]
    split
    · split
      · simp
      · simp
    · split
      · simp
      · simp

/-- Witness for C8 at the unknown operation name "get_weather". -/
theorem c8_witness :
    ("get_weather".data ≠ "get_news".data) ∧
    call_tool (fun _ => none) [] "get_weather".data ⟨none, none, none⟩
      = Except.error (PyErr.valueError
          ("Unknown tool: ".data ++ "get_weather".data)) ∧
    call_tool (fun _ => none) [] "get_news".data ⟨none, none, none⟩
      ≠ Except.error (PyErr.valueError "Unknown tool: get_news".data) :=
  ⟨by decide,
    (c8_dispatch (fun _ => none) [] ⟨none, none, none⟩).1 _ (by decide),
    (c8_dispatch (fun _ => none) [] ⟨none, none, none⟩).2 _⟩

/-! ### Claim C9 -/

/-- C9: when a non-carousel (card) format is requested and the sliced
mock article list is empty (e.g. limit 0), call_tool returns the literal
fallback text, and the result is independent of the file system — no
template is loaded and no card is rendered. -/
theorem c9_no_article_fallback (fs fs2 : FS) (now : Str) (args : Arguments)
    (hfmt : args.format.getD "carousel".data ≠ "carousel".data)
    (hempty : pySlice (mock_articles (args.topic.getD []) now)
      (args.limit.getD 5) = []) :
    call_tool fs now "get_news".data args = Except.ok ["No news available".data] ∧
    call_tool fs now "get_news".data args = call_tool fs2 now "get_news".data args := by
  have key : ∀ g : FS,
      call_tool g now "get_news".data args
        = Except.ok ["No news available".data] := by
    intro g
    simp only [call_tool]
    rw [if_pos trivial]
    split
    · next h => exact absurd h hfmt
    · rw [hempty]
  exact ⟨key fs, (key fs).trans (key fs2).symm⟩

/-- Witness for C9 at format "card" and limit 0. -/
theorem c9_witness :
    ((⟨some "ai".data, some "card".data, some 0⟩ : Arguments).format.getD
        "carousel".data ≠ "carousel".data) ∧
    pySlice (mock_articles ((⟨some "ai".data, some "card".data, some 0⟩ :
        Arguments).topic.getD []) "10:00".data)
      ((⟨some "ai".data, some "card".data, some 0⟩ : Arguments).limit.getD 5) = [] ∧
    call_tool (fun _ => none) "10:00".data "get_news".data
        ⟨some "ai".data, some "card".data, some 0⟩
      = Except.ok ["No news available".data] ∧
    call_tool (fun _ => none) "10:00".data "get_news".data
        ⟨some "ai".data, some "card".data, some 0⟩
      = call_tool (fun _ => some []) "10:00".data "get_news".data
          ⟨some "ai".data, some "card".data, some 0⟩ :=
  ⟨by decide, by decide,
    c9_no_article_fallback (fun _ => none) (fun _ => some []) "10:00".data
      ⟨some "ai".data, some "card".data, some 0⟩ (by decide) (by decide)⟩

/-! ### Claim C10 -/

/-- C10: any present format value other than the exact string "carousel"
— e.g. "banana" — takes the card path: the first sliced mock article is
rendered as a card, or the fallback text returned, and no
invalid-format error exists; an absent format behaves exactly as the
explicit default "carousel". -/
theorem c10_format_dispatch (fs : FS) (now : Str) (args : Arguments) (f : Str)
    (hsome : args.format = some f) (hf : f ≠ "carousel".data) :
    call_tool fs now "get_news".data args
      = Except.ok [match pySlice (mock_articles (args.topic.getD []) now)
            (args.limit.getD 5) with
          | a :: _ => format_news_card fs a
          | [] => "No news available".data] ∧
    (∀ args2 : Arguments, args2.format = none →
      call_tool fs now "get_news".data args2
        = call_tool fs now "get_news".data
            { args2 with format := some "carousel".data }) := by
  constructor
  · simp only [call_tool, hsome, Option.getD_some]
    rw [if_pos trivial]
    split
    · next h => exact absurd h hf
    · cases pySlice (mock_articles (args.topic.getD []) now) (args.limit.getD 5) with
      | nil => rfl
      | cons a rest => rfl
  · intro args2 h2
    simp only [call_tool, h2]
    rfl

/-- Witness for C10 at the out-of-enum format value "banana". -/
theorem c10_witness :
    ((⟨some "ai".data, some "banana".data, some 1⟩ : Arguments).format
      = some "banana".data) ∧
    ("banana".data ≠ "carousel".data) ∧
    call_tool (fun _ => none) "10:00".data "get_news".data
        ⟨some "ai".data, some "banana".data, some 1⟩
      = Except.ok [match pySlice (mock_articles
            ((⟨some "ai".data, some "banana".data, some 1⟩ : Arguments).topic.getD [])
            "10:00".data)
          ((⟨some "ai".data, some "banana".data, some 1⟩ : Arguments).limit.getD 5) with
        | a :: _ => format_news_card (fun _ => none) a
        | [] => "No news available".data] :=
  ⟨rfl, by decide,
    (c10_format_dispatch (fun _ => none) "10:00".data
      ⟨some "ai".data, some "banana".data, some 1⟩ "banana".data rfl (by decide)).1⟩

/-! ### Rendering the modelled carousel template -/

set_option maxRecDepth 100000 in
/-- On the modelled carousel template, provided the section title does
not create an earlier occurrence of either repeatable-region marker, the
carousel output is: prefix with the title substituted, then one fragment
per article in input order, then the template suffix (the region's inner
content is discarded). -/
theorem carousel_render_shape (fs : FS) (articles : List Article) (st : Str)
    (hfs : fs news_carousel_file = some news_carousel_template)
    (h1 : cleanBefore (carousel_t1 ++ st ++ carousel_t2) articlesStart = true)
    (h2 : cleanBefore (carousel_t1 ++ st ++ carousel_t2 ++ articlesStart ++ carousel_mid)
      articlesEnd = true) :
    format_news_carousel fs articles st
      = some (carousel_t1 ++ st ++ carousel_t2
          ++ (articles.map carousel_item).flatten ++ carousel_t3) := by
  have hresult : replaceAll news_carousel_template section_title_ph st
      = (carousel_t1 ++ st ++ carousel_t2) ++ articlesStart
        ++ (carousel_mid ++ articlesEnd ++ carousel_t3) := by
    have e1 : news_carousel_template
        = carousel_t1 ++ section_title_ph
          ++ (carousel_t2 ++ (articlesStart ++ (carousel_mid
            ++ (articlesEnd ++ carousel_t3)))) := by
      simp [news_carousel_template, List.append_assoc]
    rw [e1, replaceAll_clean_append carousel_t1 section_title_ph _ st (by decide) (by decide),
      replaceAll_of_not_contains _ _ _ (by decide)]
    simp [List.append_assoc]
  have hsplitS : pySplit articlesStart
      ((carousel_t1 ++ st ++ carousel_t2) ++ articlesStart
        ++ (carousel_mid ++ articlesEnd ++ carousel_t3))
      = (carousel_t1 ++ st ++ carousel_t2)
        :: pySplit articlesStart (carousel_mid ++ articlesEnd ++ carousel_t3) :=
    pySplit_clean_append _ _ _ (by decide) h1
  have hsplitE : pySplit articlesEnd
      ((carousel_t1 ++ st ++ carousel_t2) ++ articlesStart
        ++ (carousel_mid ++ articlesEnd ++ carousel_t3))
      = (carousel_t1 ++ st ++ carousel_t2 ++ articlesStart ++ carousel_mid)
        :: [carousel_t3] := by
    rw [show (carousel_t1 ++ st ++ carousel_t2) ++ articlesStart
        ++ (carousel_mid ++ articlesEnd ++ carousel_t3)
        = (carousel_t1 ++ st ++ carousel_t2 ++ articlesStart ++ carousel_mid)
          ++ articlesEnd ++ carousel_t3 from by simp [List.append_assoc]]
    rw [pySplit_clean_append _ _ _ (by decide) h2,
      pySplit_of_not_contains _ _ (by decide)]
  have hcont : containsSub
      ((carousel_t1 ++ st ++ carousel_t2) ++ articlesStart
        ++ (carousel_mid ++ articlesEnd ++ carousel_t3)) articlesStart = true :=
    containsSub_sandwich (carousel_t1 ++ st ++ carousel_t2) articlesStart
      (carousel_mid ++ articlesEnd ++ carousel_t3)
  simp only [format_news_carousel, load_template, hfs, Option.getD_some, hresult]
  rw [if_pos hcont, hsplitE, hsplitS]
  simp [List.append_assoc]

/-! ### Counting "Read more" occurrences -/

/-- The link text counted by the spec's carousel property. -/
def readMore : Str := "Read more".data

theorem countOccur_q (x y : Str) :
    countOccur (x ++ '\x22' :: y) readMore
      = countOccur x readMore + countOccur y readMore :=
  countOccur_append_cons x y readMore '\x22' (by decide) (by decide)

theorem countOccur_gt (x y : Str) :
    countOccur (x ++ '>' :: y) readMore
      = countOccur x readMore + countOccur y readMore :=
  countOccur_append_cons x y readMore '>' (by decide) (by decide)

theorem countOccur_lt (x y : Str) :
    countOccur (x ++ '<' :: y) readMore
      = countOccur x readMore + countOccur y readMore :=
  countOccur_append_cons x y readMore '<' (by decide) (by decide)

theorem countOccur_nl (x y : Str) :
    countOccur (x ++ '\n' :: y) readMore
      = countOccur x readMore + countOccur y readMore :=
  countOccur_append_cons x y readMore '\n' (by decide) (by decide)

theorem countOccur_bullet_sp (x y : Str) :
    countOccur (x ++ ' ' :: '•' :: ' ' :: y) readMore
      = countOccur x readMore + countOccur y readMore := by
  have e : x ++ ' ' :: '•' :: ' ' :: y = (x ++ [' ']) ++ '•' :: (' ' :: y) := by
    simp
  rw [e, countOccur_append_cons _ _ readMore '•' (by decide) (by decide),
    countOccur_append_single x readMore ' ' (by decide) (by decide),
    show countOccur (' ' :: y) readMore
      = (if readMore.isPrefixOf (' ' :: y) then 1 else 0) + countOccur y readMore
      from rfl,
    show (readMore.isPrefixOf (' ' :: y)) = false from rfl]
  simp

set_option maxRecDepth 100000 in
/-- One carousel fragment contains the link text exactly once, provided
no interpolated article field contains it. -/
theorem countOccur_carousel_item (a : Article)
    (himg : countOccur (a.image.getD []) readMore = 0)
    (htitle : countOccur (a.title.getD []) readMore = 0)
    (hsource : countOccur (a.source.getD []) readMore = 0)
    (htime : countOccur (a.time.getD []) readMore = 0)
    (hdesc : countOccur (a.description.getD []) readMore = 0)
    (hurl : countOccur (a.url.getD "#".data) readMore = 0) :
    countOccur (carousel_item a) readMore = 1 := by
  have hshape : carousel_item a
      = "\n      <div class=\x22carousel-item\x22>\n        <article>\n          <img src=".data ++ '\x22' ::
        (a.image.getD [] ++ '\x22' ::
        (" alt=".data ++ '\x22' ::
        (a.title.getD [] ++ '\x22' ::
        (" onerror=\x22this.style.display=\x27none\x27\x22>\n          <h3".data ++ '>' ::
        (a.title.getD [] ++ '<' ::
        ("/h3>\n          <p class=\x22source\x22".data ++ '>' ::
        (a.source.getD [] ++ ' ' :: '•' :: ' ' ::
        (a.time.getD [] ++ '<' ::
        ("/p>\n          <p class=\x22description\x22".data ++ '>' ::
        (a.description.getD [] ++ '<' ::
        ("/p>\n          <a href=".data ++ '\x22' ::
        (a.url.getD "#".data ++ '\x22' ::
          " target=\x22_blank\x22>Read more →</a>\n        </article>\n      </div>\n".data)))))))))))) := by
    simp [carousel_item, List.append_assoc]
  rw [hshape, countOccur_q, countOccur_q, countOccur_q, countOccur_q,
    countOccur_gt, countOccur_lt, countOccur_gt, countOccur_bullet_sp,
    countOccur_lt, countOccur_gt, countOccur_lt, countOccur_q, countOccur_q,
    himg, htitle, hsource, htime, hdesc, hurl]
  decide

/-- `carousel_item` with its final newline split off. -/
def carousel_item_init (article : Article) : Str :=
  "\n      <div class=\x22carousel-item\x22>\n        <article>\n          <img src=\x22".data
  ++ article.image.getD []
  ++ "\x22 alt=\x22".data
  ++ article.title.getD []
  ++ "\x22 onerror=\x22this.style.display=\x27none\x27\x22>\n          <h3>".data
  ++ article.title.getD []
  ++ "</h3>\n          <p class=\x22source\x22>".data
  ++ article.source.getD []
  ++ " • ".data
  ++ article.time.getD []
  ++ "</p>\n          <p class=\x22description\x22>".data
  ++ article.description.getD []
  ++ "</p>\n          <a href=\x22".data
  ++ article.url.getD "#".data
  ++ "\x22 target=\x22_blank\x22>Read more →</a>\n        </article>\n      </div>".data

set_option maxRecDepth 100000 in
theorem carousel_item_eq (a : Article) :
    carousel_item a = carousel_item_init a ++ ['\n'] := by
  simp [carousel_item, carousel_item_init, List.append_assoc]

theorem countOccur_carousel_item_append (a : Article) (z : Str) :
    countOccur (carousel_item a ++ z) readMore
      = countOccur (carousel_item a) readMore + countOccur z readMore := by
  rw [carousel_item_eq, List.append_assoc,
    show (['\n'] : Str) ++ z = '\n' :: z from rfl,
    countOccur_nl,
    countOccur_append_single _ readMore '\n' (by decide) (by decide)]

theorem countOccur_flatten (articles : List Article) (z : Str)
    (h : ∀ a ∈ articles, countOccur (carousel_item a) readMore = 1) :
    countOccur ((articles.map carousel_item).flatten ++ z) readMore
      = articles.length + countOccur z readMore := by
  induction articles with
  | nil => simp
  | cons a rest ih =>
    simp only [List.map_cons, List.flatten_cons]
    rw [List.append_assoc, countOccur_carousel_item_append,
      ih (fun b hb => h b (List.mem_cons_of_mem a hb)),
      h a (List.mem_cons_self a rest)]
    simp only [List.length_cons]
    omega

/-! ### Claim C5 -/

set_option maxRecDepth 1000000 in
/-- C5 is false as stated: a single article whose title is the link text
"Read more" yields an output containing three occurrences of the link
text (the title is interpolated twice — image alt text and heading — on
top of the fragment's own link), not exactly one per article. -/
theorem c5_counterexample :
    countOccur ((format_news_carousel (fun _ => some news_carousel_template)
      [⟨some "Read more".data, none, none, none, none, none⟩] "News".data).getD [])
      readMore = 3 ∧ (3 : Nat) ≠ 1 := by
  constructor
  · decide
  · decide

set_option maxRecDepth 100000 in
/-- C5 (amended): on the modelled carousel template, for every article
list and section title such that (a) the substituted section title does
not create an earlier occurrence of either repeatable-region marker and
(b) neither the section title nor any interpolated article field
contains the link text "Read more", the carousel output consists of the
substituted prefix, one fragment per article concatenated in input
order, and the suffix, and it contains exactly N occurrences of the link
text for N input articles. -/
theorem c5_amended (fs : FS) (articles : List Article) (st : Str)
    (hfs : fs news_carousel_file = some news_carousel_template)
    (h1 : cleanBefore (carousel_t1 ++ st ++ carousel_t2) articlesStart = true)
    (h2 : cleanBefore (carousel_t1 ++ st ++ carousel_t2 ++ articlesStart ++ carousel_mid)
      articlesEnd = true)
    (hst : countOccur st readMore = 0)
    (hfields : ∀ a ∈ articles,
      countOccur (a.image.getD []) readMore = 0 ∧
      countOccur (a.title.getD []) readMore = 0 ∧
      countOccur (a.source.getD []) readMore = 0 ∧
      countOccur (a.time.getD []) readMore = 0 ∧
      countOccur (a.description.getD []) readMore = 0 ∧
      countOccur (a.url.getD "#".data) readMore = 0) :
    format_news_carousel fs articles st
      = some (carousel_t1 ++ st ++ carousel_t2
          ++ (articles.map carousel_item).flatten ++ carousel_t3) ∧
    countOccur (carousel_t1 ++ st ++ carousel_t2
      ++ (articles.map carousel_item).flatten ++ carousel_t3) readMore
      = articles.length := by
  refine ⟨carousel_render_shape fs articles st hfs h1 h2, ?_⟩
  have hfrags : ∀ a ∈ articles, countOccur (carousel_item a) readMore = 1 := by
    intro a ha
    obtain ⟨hi, ht, hs, htm, hd, hu⟩ := hfields a ha
    exact countOccur_carousel_item a hi ht hs htm hd hu
  have hsh : carousel_t1 ++ st ++ carousel_t2
      ++ (articles.map carousel_item).flatten ++ carousel_t3
      = "<section class=\x22news-carousel\x22>\n  <h2".data ++ '>' ::
        (st ++ '<' ::
        ("/h2>\n  <div class=\x22carousel-track\x22>".data ++ '\n' ::
        ((articles.map carousel_item).flatten ++ carousel_t3))) := by
    simp [carousel_t1, carousel_t2, List.append_assoc]
  rw [hsh, countOccur_gt, countOccur_lt, countOccur_nl,
    countOccur_flatten articles carousel_t3 hfrags, hst,
    show countOccur "<section class=\x22news-carousel\x22>\n  <h2".data readMore = 0
      from by decide,
    show countOccur "/h2>\n  <div class=\x22carousel-track\x22>".data readMore = 0
      from by decide,
    show countOccur carousel_t3 readMore = 0 from by decide]
  omega

/-- Witness for C5 (amended) with one concrete article. -/
theorem c5_amended_witness :
    ((fun _ => some news_carousel_template : FS) news_carousel_file
      = some news_carousel_template) ∧
    cleanBefore (carousel_t1 ++ "AI News".data ++ carousel_t2) articlesStart = true ∧
    cleanBefore (carousel_t1 ++ "AI News".data ++ carousel_t2 ++ articlesStart
      ++ carousel_mid) articlesEnd = true ∧
    countOccur "AI News".data readMore = 0 ∧
    (∀ a ∈ [(⟨some "T".data, some "S".data, some "10:00".data, some "D".data,
        some "u".data, some "i".data⟩ : Article)],
      countOccur (a.image.getD []) readMore = 0 ∧
      countOccur (a.title.getD []) readMore = 0 ∧
      countOccur (a.source.getD []) readMore = 0 ∧
      countOccur (a.time.getD []) readMore = 0 ∧
      countOccur (a.description.getD []) readMore = 0 ∧
      countOccur (a.url.getD "#".data) readMore = 0) ∧
    (format_news_carousel (fun _ => some news_carousel_template)
        [⟨some "T".data, some "S".data, some "10:00".data, some "D".data,
          some "u".data, some "i".data⟩] "AI News".data
      = some (carousel_t1 ++ "AI News".data ++ carousel_t2
          ++ ([(⟨some "T".data, some "S".data, some "10:00".data, some "D".data,
              some "u".data, some "i".data⟩ : Article)].map carousel_item).flatten
          ++ carousel_t3) ∧
    countOccur (carousel_t1 ++ "AI News".data ++ carousel_t2
      ++ ([(⟨some "T".data, some "S".data, some "10:00".data, some "D".data,
          some "u".data, some "i".data⟩ : Article)].map carousel_item).flatten
      ++ carousel_t3) readMore
      = [(⟨some "T".data, some "S".data, some "10:00".data, some "D".data,
          some "u".data, some "i".data⟩ : Article)].length) :=
  ⟨rfl, by set_option maxRecDepth 100000 in decide,
    by set_option maxRecDepth 100000 in decide,
    by decide, by set_option maxRecDepth 100000 in decide,
    c5_amended (fun _ => some news_carousel_template) _ _ rfl
      (by set_option maxRecDepth 100000 in decide)
      (by set_option maxRecDepth 100000 in decide)
      (by decide)
      (by set_option maxRecDepth 100000 in decide)⟩

/-! ### Claim C6 -/

set_option maxRecDepth 1000000 in
/-- C6 is false as stated: with the section title equal to the start
marker "\x7b\x7b#articles\x7d\x7d" itself, the substituted title becomes the first
start-marker occurrence, the split discards it, and the output no longer
contains the section title at all (the renderer still returns a value). -/
theorem c6_counterexample :
    containsSub ((format_news_carousel (fun _ => some news_carousel_template) []
      articlesStart).getD []) articlesStart = false ∧
    (format_news_carousel (fun _ => some news_carousel_template) []
      articlesStart).isSome = true := by
  constructor
  · decide
  · decide

set_option maxRecDepth 100000 in
/-- C6 (amended): on the modelled carousel template, for every section
title that does not create an earlier occurrence of either
repeatable-region marker, rendering the empty article list yields
exactly the substituted prefix followed by the suffix — the section
title is substituted and retained, and no per-article fragment occurs in
the output. -/
theorem c6_amended (fs : FS) (st : Str)
    (hfs : fs news_carousel_file = some news_carousel_template)
    (h1 : cleanBefore (carousel_t1 ++ st ++ carousel_t2) articlesStart = true)
    (h2 : cleanBefore (carousel_t1 ++ st ++ carousel_t2 ++ articlesStart ++ carousel_mid)
      articlesEnd = true) :
    format_news_carousel fs [] st
      = some (carousel_t1 ++ st ++ carousel_t2 ++ carousel_t3) := by
  have h := carousel_render_shape fs [] st hfs h1 h2
  simpa using h

/-- Witness for C6 (amended) at the section title "Sports News". -/
theorem c6_amended_witness :
    ((fun _ => some news_carousel_template : FS) news_carousel_file
      = some news_carousel_template) ∧
    cleanBefore (carousel_t1 ++ "Sports News".data ++ carousel_t2) articlesStart = true ∧
    cleanBefore (carousel_t1 ++ "Sports News".data ++ carousel_t2 ++ articlesStart
      ++ carousel_mid) articlesEnd = true ∧
    format_news_carousel (fun _ => some news_carousel_template) [] "Sports News".data
      = some (carousel_t1 ++ "Sports News".data ++ carousel_t2 ++ carousel_t3) :=
  ⟨rfl, by set_option maxRecDepth 100000 in decide,
    by set_option maxRecDepth 100000 in decide,
    c6_amended (fun _ => some news_carousel_template) _ rfl
      (by set_option maxRecDepth 100000 in decide)
      (by set_option maxRecDepth 100000 in decide)⟩
